import Mathlib

/-
  Verification development for the make-a-task repository.

  The definitions below are a shallow embedding of:
  - the client reconciliation store (zustand store in the frontend source:
    interfaces Notification, Comment, Task, ..., and the realtime event
    handlers handle_notification_update, handle_comment_created,
    handle_task_status_updated, handle_task_reordered, handle_activity_stream);
  - the backend HTTP handlers POST /tasks/:task_id/status,
    POST /tasks/:task_id/comments, PUT /tasks/:task_id (src/backend/server.js),
    over an explicit relational-state record mirroring the SQL tables used by
    those handlers;
  - the socket.io connection handler and the broadcast helper functions
    (broadcastEvent, broadcastTaskStatusUpdate, ...).
-/

set_option maxRecDepth 4096

namespace MakeATask

/-! ## Client-side data model (frontend store interfaces) -/

/-- Mirrors the frontend `UserProfile` interface. -/
structure UserProfile where
  user_id : String
  name : String
  email : String
  avatar_url : String
  role : String
  created_at : String
  updated_at : String
deriving DecidableEq

/-- Mirrors the frontend `Workspace` interface. -/
structure Workspace where
  workspace_id : String
  name : String
  owner_id : String
  created_at : String
  updated_at : String
  visibility : String
deriving DecidableEq

/-- Mirrors the frontend `Comment` interface; `user_name` is the optional
field `user_name?: string`. -/
structure Comment where
  comment_id : String
  author_id : String
  content : String
  created_at : String
  updated_at : String
  mentions : List String
  user_name : Option String
deriving DecidableEq

/-- Mirrors the frontend `Attachment` interface. -/
structure Attachment where
  attachment_id : String
  file_url : String
  filename : String
  created_at : String
deriving DecidableEq

/-- Mirrors the frontend `Activity` interface. -/
structure Activity where
  activity_id : String
  user_id : String
  action_type : String
  description : String
  timestamp : String
deriving DecidableEq

/-- Mirrors the frontend `Notification` interface (the `type` field is
named `ntype` because `type` reads poorly as a Lean projection). -/
structure Notification where
  notification_id : String
  ntype : String
  message : String
  is_read : Bool
  created_at : String
deriving DecidableEq

/-- Mirrors the frontend `Task` interface (the client-side cached task
projection). -/
structure Task where
  task_id : String
  workspace_id : String
  created_by : String
  assigned_to : Option String
  title : String
  description : Option String
  due_date : Option String
  priority : String
  status : String
  is_favorited : Bool
  created_at : String
  updated_at : String
  tags : List String
  comments : List Comment
  attachments : List Attachment
  activity_log : List Activity
deriving DecidableEq

/-- Mirrors the frontend `UserPreferences` interface. -/
structure UserPreferences where
  theme : String
  notifications_enabled : Bool
  language : String
deriving DecidableEq

/-- The data fields of the zustand store (`AppState`).  The transport
handle (`socket`) is not data and is omitted; every other state field of
the store is present. -/
structure AppState where
  auth_token : Option String
  current_user : Option UserProfile
  workspaces : List Workspace
  selected_workspace : Option Workspace
  tasks : List Task
  current_task : Option Task
  notifications : List Notification
  user_preferences : UserPreferences
  socket_connected : Bool
deriving DecidableEq

/-- Payload of the `comment_created` event: the TS type is
`Comment & \x7b task_id: string \x7d`. -/
structure CommentPayload extends Comment where
  task_id : String
deriving DecidableEq

/-- Payload of the `task_status_updated` event:
`\x7b task_id: string; status: string; timestamp: string \x7d`. -/
structure StatusPayload where
  task_id : String
  status : String
  timestamp : String
deriving DecidableEq

/-! ## JavaScript array helpers

`findIndex` mirrors `Array.prototype.findIndex` (first index satisfying the
predicate, `none` when absent; the JS function returns `-1` there).
Element assignment `arr[i] = x` is modelled by `List.set`. -/

/-- JavaScript `Array.prototype.findIndex`, as an `Option Nat`. -/
def findIndex (p : α → Bool) : List α → Option Nat
  | [] => none
  | x :: xs => if p x then some 0 else (findIndex p xs).map (· + 1)

/-! ## Client event handlers (translated from the store source) -/

/-- Handler registered for `notification_update`: find the notification by
`notification_id`; replace it when present, push it otherwise. -/
def handle_notification_update (s : AppState) (payload : Notification) : AppState :=
  match findIndex (fun n => n.notification_id == payload.notification_id) s.notifications with
  | some i => { s with notifications := s.notifications.set i payload }
  | none => { s with notifications := s.notifications ++ [payload] }

/-- Handler registered for `comment_created`: when the store's
`current_task` matches the payload's `task_id`, append the comment to its
`comments` array; otherwise do nothing.  The source performs no
de-duplication before the append. -/
def handle_comment_created (s : AppState) (payload : CommentPayload) : AppState :=
  match s.current_task with
  | none => s
  | some ct =>
    if ct.task_id != payload.task_id then s
    else { s with current_task := some { ct with comments := ct.comments ++ [payload.toComment] } }

/-- The tasks-array phase of the `task_status_updated` handler: find the
task by id; when found, overwrite its `status` and `updated_at` with the
payload's values (the source compares no timestamps). -/
def applyStatusTasks (tasks : List Task) (p : StatusPayload) : List Task :=
  match findIndex (fun t => t.task_id == p.task_id) tasks with
  | some i =>
    match tasks[i]? with
    | some t => tasks.set i { t with status := p.status, updated_at := p.timestamp }
    | none => tasks
  | none => tasks

/-- The `current_task` phase of the `task_status_updated` handler. -/
def applyStatusCurrent (ct : Option Task) (p : StatusPayload) : Option Task :=
  match ct with
  | some t =>
    if t.task_id == p.task_id then some { t with status := p.status, updated_at := p.timestamp }
    else some t
  | none => none

/-- Handler registered for `task_status_updated`.  The source issues two
sequential `set` calls (one for `tasks`, one for `current_task`); they
touch disjoint store fields, so their composite is this single record
update. -/
def handle_task_status_updated (s : AppState) (p : StatusPayload) : AppState :=
  { s with tasks := applyStatusTasks s.tasks p,
           current_task := applyStatusCurrent s.current_task p }

/-- Handler registered for `task_reorder`: the source body is empty
(comments only), so the store is returned unchanged for every payload. -/
def handle_task_reordered {α : Type} (s : AppState) (_payload : α) : AppState := s

/-- Handler registered for `activity/stream`: the source body is empty
(comments only), so the store is returned unchanged. -/
def handle_activity_stream (s : AppState) (_payload : Activity) : AppState := s

/-- The event names the client registers socket handlers for in
`init_socket`, in registration order. -/
def clientRegisteredEvents : List String :=
  ["notification_update", "comment_created", "task_status_updated", "task_reorder", "activity/stream"]

/-! ## Server-side wire events (broadcast helpers in server.js)

A `WireEvent` records the channel name a broadcast helper emits on and its
JSON payload, flattened to key/value pairs in source order. -/

/-- A socket.io emission: the channel/event name plus its payload fields. -/
structure WireEvent where
  channel : String
  payload : List (String × String)
deriving DecidableEq

/-- Translation of `broadcastTaskStatusUpdate(task_id, new_status)`: the
timestamp the source reads from the clock is passed in explicitly. -/
def broadcastTaskStatusUpdate (task_id new_status timestamp : String) : WireEvent :=
  { channel := "task/status/updated",
    payload := [("task_id", task_id), ("new_status", new_status), ("timestamp", timestamp)] }

/-- Translation of `broadcastCommentCreated(comment)`: the comment object
is forwarded as the payload. -/
def broadcastCommentCreated (comment : List (String × String)) : WireEvent :=
  { channel := "task/comment/new", payload := comment }

/-- Translation of `broadcastAttachmentUploaded(attachment)`. -/
def broadcastAttachmentUploaded (attachment : List (String × String)) : WireEvent :=
  { channel := "task/attachment/uploaded", payload := attachment }

/-- Translation of `broadcastTaskReordered(reorderData)`. -/
def broadcastTaskReordered (reorderData : List (String × String)) : WireEvent :=
  { channel := "task/reorder", payload := reorderData }

/-- Translation of `broadcastActivityStream(activity)`. -/
def broadcastActivityStream (activity : List (String × String)) : WireEvent :=
  { channel := "activity/stream", payload := activity }

/-- The channels the five server broadcast helpers emit on. -/
def serverBroadcastChannels : List String :=
  [(broadcastTaskStatusUpdate "" "" "").channel,
   (broadcastCommentCreated []).channel,
   (broadcastAttachmentUploaded []).channel,
   (broadcastTaskReordered []).channel,
   (broadcastActivityStream []).channel]

/-! ## Server-side relational state

Rows of the SQL tables read or written by the three handlers under
verification, with only the columns those handlers touch. -/

/-- A row of `workspaces` (columns used: id, owner_id). -/
structure WorkspaceRow where
  id : Nat
  owner_id : Nat
deriving DecidableEq

/-- A row of `workspace_users`. -/
structure WorkspaceUserRow where
  workspace_id : Nat
  user_id : Nat
  role : String
deriving DecidableEq

/-- A row of `tasks` (columns used by the status and update handlers).
Timestamps written via `CURRENT_TIMESTAMP` are modelled as `Nat` clock
ticks supplied to each handler. -/
structure TaskRow where
  id : String
  workspace_id : Nat
  title : String
  description : Option String
  due_date : Option String
  priority : String
  status : String
  assigned_to : Option Nat
  updated_at : Nat
deriving DecidableEq

/-- A row of `comments` (columns used by the comment handler); `id` is the
database-assigned identifier, supplied to the model as a parameter. -/
structure CommentRow where
  id : String
  task_id : String
  user_id : Nat
  content : String
deriving DecidableEq

/-- A row of `task_activity` as written by the status handler. -/
structure ActivityRow where
  task_id : String
  user_id : Nat
  action : String
  description : String
  timestamp : Nat
deriving DecidableEq

/-- The durable state visible to the verified handlers. -/
structure DB where
  workspaces : List WorkspaceRow
  workspace_users : List WorkspaceUserRow
  tasks : List TaskRow
  comments : List CommentRow
  task_activity : List ActivityRow
  task_tags : List (String × String)
deriving DecidableEq

/-- The authenticated JWT principal (`req.user`), with the fields the
handlers read. -/
structure AuthUser where
  user_id : Nat
  role : String
deriving DecidableEq

/-- `SELECT * FROM tasks WHERE id = task_id`, first row. -/
def findTask (db : DB) (task_id : String) : Option TaskRow :=
  db.tasks.find? (fun t => t.id == task_id)

/-- `SELECT * FROM workspace_users WHERE workspace_id = wid AND user_id = uid`. -/
def memberRows (db : DB) (wid uid : Nat) : List WorkspaceUserRow :=
  db.workspace_users.filter (fun r => r.workspace_id == wid && r.user_id == uid)

/-- `SELECT owner_id FROM workspaces WHERE id = wid`. -/
def ownerRows (db : DB) (wid : Nat) : List WorkspaceRow :=
  db.workspaces.filter (fun w => w.id == wid)

/-- The closed status set checked by POST /tasks/:task_id/status and
enforced by the schema CHECK constraint on `tasks.status`. -/
def validStatuses : List String :=
  ["Pending", "In Progress", "Completed", "On Hold", "Cancelled"]

/-- The priority set enforced by the schema CHECK constraint on
`tasks.priority`. -/
def validPriorities : List String := ["Low", "Medium", "High"]

/-- Outcome of an HTTP handler: response status, the durable state after
the request, and every event the handler handed to the distributor. -/
structure HandlerResult where
  httpStatus : Nat
  db : DB
  published : List WireEvent
deriving DecidableEq

/-- The rejection condition of the status handler, verbatim from the
source guard `role !== Admin && (rows.length === 0 || ownerRows.length
=== 0 || ownerRows[0].owner_id !== uid)` (the `rows[0]` read is guarded by
short-circuiting, modelled by the match on `head?`). -/
def statusForbidden (db : DB) (user : AuthUser) (task : TaskRow) : Bool :=
  user.role != "Admin" &&
    ((memberRows db task.workspace_id user.user_id).isEmpty ||
      match (ownerRows db task.workspace_id).head? with
      | none => true
      | some w => w.owner_id != user.user_id)

/-- Translation of the POST /tasks/:task_id/status handler.  Note the
authorization guard from the source: a non-admin is rejected unless
membership rows exist AND the workspace row exists AND its owner is the
caller (short-circuiting disjunction of failure conditions).  The handler
calls no broadcast function, so `published` is empty on every path. -/
def postTaskStatus (db : DB) (user : AuthUser) (task_id status : String) (now : Nat) : HandlerResult :=
  if !(validStatuses.contains status) then ⟨400, db, []⟩
  else
    match findTask db task_id with
    | none => ⟨404, db, []⟩
    | some task =>
      if statusForbidden db user task then ⟨403, db, []⟩
      else
        let tasks2 := db.tasks.map (fun t =>
          if t.id == task_id then { t with status := status, updated_at := now } else t)
        let act : ActivityRow :=
          ⟨task_id, user.user_id, "status_changed", "Status changed to " ++ status, now⟩
        ⟨200, { db with tasks := tasks2, task_activity := db.task_activity ++ [act] }, []⟩

/-- Translation of the POST /tasks/:task_id/comments handler.  The source
guard is `role !== Admin && rows.length === 0 && rows0.owner_id !== uid`:
when the caller is neither admin nor member, reading `rows[0]` of an empty
owner result throws and the catch block answers 500.  The insert commits
and the handler returns success; the broadcast call site is an unexpanded
TODO comment, so `published` is empty on every path. -/
def postComment (db : DB) (user : AuthUser) (task_id content comment_id : String) : HandlerResult :=
  match findTask db task_id with
  | none => ⟨404, db, []⟩
  | some task =>
    let accessRows := memberRows db task.workspace_id user.user_id
    let wsOwnerRows := ownerRows db task.workspace_id
    let inserted : HandlerResult :=
      ⟨200, { db with comments := db.comments ++ [⟨comment_id, task_id, user.user_id, content⟩] }, []⟩
    if user.role != "Admin" && accessRows.isEmpty then
      match wsOwnerRows.head? with
      | none => ⟨500, db, []⟩
      | some w => if w.owner_id != user.user_id then ⟨403, db, []⟩ else inserted
    else inserted

/-- Request body of PUT /tasks/:task_id; `none` means the field was absent
from the JSON body (provided-but-null values are not modelled — no claim
depends on them). -/
structure PutBody where
  title : Option String
  description : Option String
  due_date : Option String
  priority : Option String
  status : Option String
  assigned_to : Option Nat
  tags : Option (List String)
deriving DecidableEq

/-- Outcome of PUT /tasks/:task_id; `writeAttempted` records whether the
handler issued the UPDATE statement. -/
structure PutResult where
  httpStatus : Nat
  db : DB
  published : List WireEvent
  writeAttempted : Bool
deriving DecidableEq

/-- The rejection condition of the PUT /tasks/:task_id handler, verbatim
from the source guard `rows.length === 0 && (ownerRows.length === 0 ||
ownerRows[0].owner_id !== uid)` — note this endpoint has no Admin
bypass. -/
def putDenied (db : DB) (user : AuthUser) (task : TaskRow) : Bool :=
  (memberRows db task.workspace_id user.user_id).isEmpty &&
    (match (ownerRows db task.workspace_id).head? with
     | none => true
     | some w => w.owner_id != user.user_id)

/-- Whether the values supplied by a PUT body satisfy the schema CHECK
constraints on `tasks.status` and `tasks.priority` (absent fields pass). -/
def putBodyRowOk (body : PutBody) : Bool :=
  (match body.status with
    | some s => validStatuses.contains s
    | none => true) &&
  (match body.priority with
    | some p => validPriorities.contains p
    | none => true)

/-- Translation of the PUT /tasks/:task_id handler.  It performs no status
or priority validation; when a supplied value violates the schema CHECK
constraint the UPDATE statement itself fails and the catch block answers
500 with the state unchanged.  `dateOk` stands for the source's
`!isNaN(Date.parse(d))`. -/
def putTask (db : DB) (user : AuthUser) (task_id : String) (body : PutBody)
    (dateOk : String → Bool) (now : Nat) : PutResult :=
  match findTask db task_id with
  | none => ⟨404, db, [], false⟩
  | some task =>
    if putDenied db user task then ⟨403, db, [], false⟩
    else
      if putBodyRowOk body then
        let tasks2 := db.tasks.map (fun t =>
          if t.id == task_id then
            { t with
              title := body.title.getD t.title,
              description := match body.description with
                | some d => some d
                | none => t.description,
              due_date := match body.due_date with
                | none => t.due_date
                | some d => if d != "" && dateOk d then some d else none,
              priority := body.priority.getD t.priority,
              status := body.status.getD t.status,
              assigned_to := match body.assigned_to with
                | some a => some a
                | none => t.assigned_to,
              updated_at := now }
          else t)
        let tags2 := match body.tags with
          | some tl =>
            tl.foldl (fun acc tg => if acc.contains (task_id, tg) then acc else acc ++ [(task_id, tg)])
              (db.task_tags.filter (fun r => r.1 != task_id))
          | none => db.task_tags
        ⟨200, { db with tasks := tasks2, task_tags := tags2 }, [], true⟩
      else ⟨500, db, [], true⟩

/-! ## Socket connection handler and delivery -/

/-- Result of `jwt.verify` on the handshake credential. -/
inductive VerifyResult where
  | ok (user_id : Nat) (role : String)
  | err
deriving DecidableEq

/-- The state of one socket after the `io.on('connection')` callback ran:
whether it stayed connected, the verified principal stored on
`socket.data`, and the rooms it joined. -/
structure ConnState where
  connected : Bool
  user : Option (Nat × String)
  rooms : List String
deriving DecidableEq

/-- Translation of the connection callback: a missing or empty token (both
falsy in the source's `!token` test) disconnects immediately; a token
failing verification disconnects; on success the socket joins only its
per-user room `user_<id>`. -/
def connectionHandler (token : Option String) (verify : String → VerifyResult) : ConnState :=
  match token with
  | none => ⟨false, none, []⟩
  | some t =>
    if t = "" then ⟨false, none, []⟩
    else
      match verify t with
      | .err => ⟨false, none, []⟩
      | .ok uid role => ⟨true, some (uid, role), ["user_" ++ toString uid]⟩

/-- Recipients of `broadcastEvent(channel, message)`, which emits to the
room named `channel`: exactly the sockets that joined that room. -/
def deliveredSessions (sessions : List ConnState) (channel : String) : List ConnState :=
  sessions.filter (fun s => s.rooms.contains channel)

/-! ## Lemmas about `findIndex` and element assignment -/

theorem findIndex_lt_length {α : Type} {p : α → Bool} {l : List α} {i : Nat}
    (h : findIndex p l = some i) : i < l.length := by
  induction l generalizing i with
  | nil => simp [findIndex] at h
  | cons x xs ih =>
    by_cases hp : p x
    · simp [findIndex, hp] at h
      simp only [List.length_cons]
      omega
    · simp [findIndex, hp] at h
      obtain ⟨j, hj, hji⟩ := h
      have := ih hj
      simp only [List.length_cons]
      omega

theorem findIndex_get {α : Type} {p : α → Bool} {l : List α} {i : Nat}
    (h : findIndex p l = some i) : ∃ x, l[i]? = some x ∧ p x = true := by
  induction l generalizing i with
  | nil => simp [findIndex] at h
  | cons x xs ih =>
    by_cases hp : p x
    · simp [findIndex, hp] at h
      exact ⟨x, by simp [← h], hp⟩
    · simp [findIndex, hp] at h
      obtain ⟨j, hj, hji⟩ := h
      obtain ⟨y, hy, hpy⟩ := ih hj
      exact ⟨y, by simp [← hji, hy], hpy⟩

theorem findIndex_set {α : Type} {p : α → Bool} {a : α} {l : List α} {i : Nat}
    (ha : p a = true) (h : findIndex p l = some i) :
    findIndex p (l.set i a) = some i := by
  induction l generalizing i with
  | nil => simp [findIndex] at h
  | cons x xs ih =>
    by_cases hp : p x
    · simp [findIndex, hp] at h
      rw [← h]
      simp [findIndex, ha]
    · simp [findIndex, hp] at h
      obtain ⟨j, hj, hji⟩ := h
      rw [← hji]
      simpa [findIndex, hp] using ih hj

theorem findIndex_append_none {α : Type} {p : α → Bool} {l : List α}
    (h : findIndex p l = none) (a : α) :
    findIndex p (l ++ [a]) = if p a then some l.length else none := by
  induction l with
  | nil =>
    cases hp : p a <;> simp [findIndex, hp]
  | cons x xs ih =>
    by_cases hp : p x
    · simp [findIndex, hp] at h
    · simp [findIndex, hp] at h
      rw [List.cons_append]
      simp only [findIndex, hp, if_false]
      rw [ih h]
      cases hpa : p a <;> simp

theorem set_append_length {α : Type} (l : List α) (a b : α) :
    (l ++ [a]).set l.length b = l ++ [b] := by
  induction l with
  | nil => rfl
  | cons x xs ih =>
    simp [List.set, ih]

/-! ## Idempotence of the notification and status handlers -/

theorem handle_notification_update_idem (s : AppState) (n : Notification) :
    handle_notification_update (handle_notification_update s n) n
      = handle_notification_update s n := by
  have hn : (fun x : Notification => x.notification_id == n.notification_id) n = true := by
    simp
  cases h : findIndex (fun x => x.notification_id == n.notification_id) s.notifications with
  | some i =>
    have h2 := findIndex_set (p := fun x : Notification => x.notification_id == n.notification_id)
      (a := n) hn h
    simp [handle_notification_update, h, h2, List.set_set]
  | none =>
    have h2 := findIndex_append_none h n
    simp only [hn, if_true] at h2
    simp [handle_notification_update, h, h2, set_append_length]

theorem applyStatusCurrent_idem (ct : Option Task) (p : StatusPayload) :
    applyStatusCurrent (applyStatusCurrent ct p) p = applyStatusCurrent ct p := by
  cases ct with
  | none => rfl
  | some t =>
    by_cases h : (t.task_id == p.task_id) = true
    · simp [applyStatusCurrent, h]
    · simp only [Bool.not_eq_true] at h
      simp [applyStatusCurrent, h]

theorem applyStatusTasks_idem (tasks : List Task) (p : StatusPayload) :
    applyStatusTasks (applyStatusTasks tasks p) p = applyStatusTasks tasks p := by
  cases h : findIndex (fun t => t.task_id == p.task_id) tasks with
  | none => simp [applyStatusTasks, h]
  | some i =>
    cases hg : tasks[i]? with
    | none => simp [applyStatusTasks, h, hg]
    | some t =>
      have hpt : (fun x : Task => x.task_id == p.task_id) t = true := by
        obtain ⟨y, hy, hpy⟩ := findIndex_get h
        rw [hg] at hy
        cases hy
        exact hpy
      have hpa : (fun x : Task => x.task_id == p.task_id)
          { t with status := p.status, updated_at := p.timestamp } = true := hpt
      have h2 := findIndex_set (p := fun x : Task => x.task_id == p.task_id)
        (a := { t with status := p.status, updated_at := p.timestamp }) hpa h
      have hlen := findIndex_lt_length h
      have hg2 : (tasks.set i { t with status := p.status, updated_at := p.timestamp })[i]?
          = some { t with status := p.status, updated_at := p.timestamp } :=
        List.getElem?_set_self (by simpa using hlen)
      simp [applyStatusTasks, h, hg, h2, hg2, List.set_set]

theorem handle_task_status_updated_idem (s : AppState) (p : StatusPayload) :
    handle_task_status_updated (handle_task_status_updated s p) p
      = handle_task_status_updated s p := by
  simp [handle_task_status_updated, applyStatusTasks_idem, applyStatusCurrent_idem]

/-! ## Helper lemmas: the verified handlers publish nothing -/

theorem postComment_publishes_nothing (db : DB) (user : AuthUser)
    (task_id content comment_id : String) :
    (postComment db user task_id content comment_id).published = [] := by
  unfold postComment
  dsimp only
  repeat' split
  all_goals rfl

theorem postTaskStatus_publishes_nothing (db : DB) (user : AuthUser)
    (task_id status : String) (now : Nat) :
    (postTaskStatus db user task_id status now).published = [] := by
  unfold postTaskStatus
  dsimp only
  repeat' split
  all_goals rfl

/-! ## Concrete fixtures for the claim theorems -/

/-- Durable state for C1: workspace 1 owned by user 1, who is also a
member; one task `t1`. -/
def dbC1 : DB :=
  ⟨[⟨1, 1⟩], [⟨1, 1, "Admin"⟩],
   [⟨"t1", 1, "Design", none, none, "High", "Pending", none, 0⟩], [], [], []⟩

/-- Durable state for C7: workspace 1 owned by user 9; user 2 is a
workspace member but not the owner; one task `t1`. -/
def dbC7 : DB :=
  ⟨[⟨1, 9⟩], [⟨1, 2, "Team Member"⟩],
   [⟨"t1", 1, "Design", none, none, "High", "Pending", none, 0⟩], [], [], []⟩

/-- Durable state for C8: workspace 1 owned by user 9 (not a member row);
one task `t1`. -/
def dbC8 : DB :=
  ⟨[⟨1, 9⟩], [],
   [⟨"t1", 1, "Design", none, none, "High", "Pending", none, 0⟩], [], [], []⟩

/-- PUT body for C8 supplying only an out-of-set status. -/
def bodyC8 : PutBody := ⟨none, none, none, none, some "Bogus", none, none⟩

/-- A comment already cached on the current task in C4's store state. -/
def commentC4 : Comment := ⟨"c1", "u1", "hello", "2024-01-01", "2024-01-01", [], none⟩

/-- C4's cached current task, already holding `commentC4`. -/
def taskC4 : Task :=
  ⟨"t1", "w1", "u1", none, "Design", none, none, "Medium", "Pending", false,
   "2024-01-01", "2024-01-01", [], [commentC4], [], []⟩

/-- C4's store state. -/
def stateC4 : AppState :=
  ⟨none, none, [], none, [], some taskC4, [], ⟨"light", true, "en"⟩, false⟩

/-- The comment payload of C3's counterexample. -/
def commentC3 : Comment := ⟨"c9", "u2", "ping", "2024-02-01", "2024-02-01", [], none⟩

/-- C3's cached current task (no comments yet). -/
def taskC3 : Task :=
  ⟨"t9", "w1", "u1", none, "Docs", none, none, "Low", "Pending", false,
   "2024-02-01", "2024-02-01", [], [], [], []⟩

/-- C3's store state. -/
def stateC3 : AppState :=
  ⟨none, none, [], none, [], some taskC3, [], ⟨"light", true, "en"⟩, false⟩

/-- C5's cached task, last updated 2024-03-01. -/
def taskC5 : Task :=
  ⟨"t5", "w1", "u1", none, "Review", none, none, "High", "Completed", false,
   "2024-01-01", "2024-03-01", [], [], [], []⟩

/-- C5's store state. -/
def stateC5 : AppState :=
  ⟨none, none, [], none, [taskC5], none, [], ⟨"light", true, "en"⟩, false⟩

/-- C5's incoming event, carrying a strictly older timestamp (2024-02-01)
than the cached `updated_at` (2024-03-01). -/
def staleC5 : StatusPayload := ⟨"t5", "Pending", "2024-02-01"⟩

/-- A verified socket session of user 1 (C6). -/
def sessionC6a : ConnState :=
  connectionHandler (some "tokA") (fun _ => VerifyResult.ok 1 "Team Member")

/-- A verified socket session of user 2 (C6). -/
def sessionC6b : ConnState :=
  connectionHandler (some "tokB") (fun _ => VerifyResult.ok 2 "Team Member")

/-! ## Claim theorems -/

/-- Claim C1 (code_bug evidence): no mutation handler ever hands an event
to the distributor — `published` is empty on every path of the comment and
status handlers, including a concretely successful comment creation whose
insert commits (HTTP 200, comments row appended), contradicting the claim
that every committed observable write publishes before returning
success. -/
theorem C1_committed_writes_publish_nothing :
    (∀ (db : DB) (user : AuthUser) (task_id content comment_id : String),
      (postComment db user task_id content comment_id).published = []) ∧
    (∀ (db : DB) (user : AuthUser) (task_id status : String) (now : Nat),
      (postTaskStatus db user task_id status now).published = []) ∧
    ((postComment dbC1 ⟨1, "Admin"⟩ "t1" "hello" "c1").httpStatus = 200 ∧
      (postComment dbC1 ⟨1, "Admin"⟩ "t1" "hello" "c1").db.comments
        = [⟨"c1", "t1", 1, "hello"⟩]) :=
  ⟨postComment_publishes_nothing, postTaskStatus_publishes_nothing, by decide⟩

/-- Claim C2 (code_bug evidence): the server's status broadcast helper
emits on channel `task/status/updated` with payload keys
(task_id, new_status, timestamp) — not the client-registered name
`task_status_updated` with keys (task_id, status, timestamp) — and none of
the client-registered names except `activity/stream` is ever emitted by a
server broadcast helper. -/
theorem C2_wire_event_names_diverge (task_id new_status timestamp : String) :
    (broadcastTaskStatusUpdate task_id new_status timestamp).channel = "task/status/updated" ∧
    clientRegisteredEvents.contains
      (broadcastTaskStatusUpdate task_id new_status timestamp).channel = false ∧
    (broadcastTaskStatusUpdate task_id new_status timestamp).payload.map Prod.fst
      = ["task_id", "new_status", "timestamp"] ∧
    (broadcastTaskStatusUpdate task_id new_status timestamp).payload.map Prod.fst
      ≠ ["task_id", "status", "timestamp"] ∧
    serverBroadcastChannels.contains "task_status_updated" = false ∧
    serverBroadcastChannels.contains "comment_created" = false ∧
    serverBroadcastChannels.contains "notification_update" = false ∧
    serverBroadcastChannels.contains "task_reorder" = false ∧
    serverBroadcastChannels.contains "activity/stream" = true := by
  refine ⟨rfl, ?_, rfl, ?_, by decide, by decide, by decide, by decide, by decide⟩
  · show clientRegisteredEvents.contains "task/status/updated" = false
    decide
  · show (["task_id", "new_status", "timestamp"] : List String) ≠ ["task_id", "status", "timestamp"]
    decide

/-- Claim C3, counterexample: applying the same `comment_created` event
twice to a store whose current task matches the event appends the comment
twice, so the handler is not idempotent. -/
theorem C3_counterexample_comment_handler :
    handle_comment_created (handle_comment_created stateC3 ⟨commentC3, "t9"⟩) ⟨commentC3, "t9"⟩
      ≠ handle_comment_created stateC3 ⟨commentC3, "t9"⟩ := by
  decide

/-- Claim C3 as amended: the handlers for notification updates and task
status updates are idempotent — applying either twice in succession to any
store state yields the same state as applying it once (the comment-created
handler is excluded: it appends without de-duplication). -/
theorem C3_amended_notification_status_idempotent (s : AppState) (n : Notification)
    (p : StatusPayload) :
    handle_notification_update (handle_notification_update s n) n
      = handle_notification_update s n ∧
    handle_task_status_updated (handle_task_status_updated s p) p
      = handle_task_status_updated s p :=
  ⟨handle_notification_update_idem s n, handle_task_status_updated_idem s p⟩

/-- Claim C4 (code_bug evidence): the current task already caches comment
`c1`, yet applying a `comment_created` event carrying the same
`comment_id` leaves the comment sequence with `c1` twice — the handler
performs no de-duplication. -/
theorem C4_echoed_comment_duplicated :
    (handle_comment_created stateC4 ⟨commentC4, "t1"⟩).current_task.map
      (fun t => t.comments.map (fun c => c.comment_id)) = some ["c1", "c1"] := by
  decide

/-- Claim C5 (code_bug evidence): the incoming event's timestamp
(2024-02-01) is strictly older than the cached `updated_at` (2024-03-01),
yet applying the event overwrites both the status and `updated_at` with
the older values — `updated_at` regresses. -/
theorem C5_stale_event_regresses_cache :
    staleC5.timestamp < taskC5.updated_at ∧
    (handle_task_status_updated stateC5 staleC5).tasks.map
      (fun t => (t.status, t.updated_at)) = [("Pending", "2024-02-01")] := by
  constructor
  · rw [String.lt_iff_toList_lt]
    decide
  · decide

/-- Claim C6 (code_bug evidence): two verified, connected sessions exist,
but broadcasting any task-scoped event delivers to the room named after
the channel, which no socket ever joins (sockets join only their
`user_<id>` room) — so the events reach no session at all, not the
workspace-subscribed sessions. -/
theorem C6_task_events_reach_no_session :
    sessionC6a.connected = true ∧ sessionC6b.connected = true ∧
    deliveredSessions [sessionC6a, sessionC6b]
      (broadcastTaskStatusUpdate "t1" "In Progress" "ts").channel = [] ∧
    deliveredSessions [sessionC6a, sessionC6b] (broadcastCommentCreated []).channel = [] ∧
    deliveredSessions [sessionC6a, sessionC6b] (broadcastTaskReordered []).channel = [] ∧
    deliveredSessions [sessionC6a, sessionC6b] (broadcastActivityStream []).channel = [] := by
  decide

/-- Claim C7, counterexample: user 2 is a member of task `t1`'s
workspace (and not an Admin), the status is valid and the task exists,
yet the status-change request is rejected with 403 and the durable state
is unchanged — membership alone does not suffice, contradicting the
claimed admin-or-owner-or-member rule. -/
theorem C7_counterexample_member_rejected :
    memberRows dbC7 1 2 ≠ [] ∧
    (findTask dbC7 "t1").isSome = true ∧
    validStatuses.contains "Completed" = true ∧
    (postTaskStatus dbC7 ⟨2, "Team Member"⟩ "t1" "Completed" 5).httpStatus = 403 ∧
    (postTaskStatus dbC7 ⟨2, "Team Member"⟩ "t1" "Completed" 5).db = dbC7 ∧
    (postTaskStatus dbC7 ⟨2, "Team Member"⟩ "t1" "Completed" 5).published = [] := by
  decide

/-! ## The authorization rule the status handler actually implements -/

/-- Declarative reading of the status handler's guard: the caller has the
Admin role, or is recorded as a workspace member AND the workspace row
exists with the caller as its owner. -/
def statusChangeAuthorized (db : DB) (user : AuthUser) (task : TaskRow) : Prop :=
  user.role = "Admin" ∨
    ((∃ r ∈ db.workspace_users, r.workspace_id = task.workspace_id ∧ r.user_id = user.user_id) ∧
      ∃ w, (ownerRows db task.workspace_id).head? = some w ∧ w.owner_id = user.user_id)

theorem memberRows_isEmpty_false_iff (db : DB) (wid uid : Nat) :
    (memberRows db wid uid).isEmpty = false ↔
      ∃ r ∈ db.workspace_users, r.workspace_id = wid ∧ r.user_id = uid := by
  rw [List.isEmpty_eq_false]
  unfold memberRows
  rw [ne_eq, List.filter_eq_nil_iff]
  push_neg
  simp

theorem statusForbidden_false_iff (db : DB) (user : AuthUser) (task : TaskRow) :
    statusForbidden db user task = false ↔ statusChangeAuthorized db user task := by
  unfold statusForbidden statusChangeAuthorized
  cases ho : (ownerRows db task.workspace_id).head? with
  | none =>
    simp [Bool.and_eq_false_iff, Bool.or_eq_false_iff, bne_eq_false_iff_eq, ho]
  | some w =>
    dsimp only
    simp only [Bool.and_eq_false_iff, Bool.or_eq_false_iff, bne_eq_false_iff_eq,
      memberRows_isEmpty_false_iff, Option.some.injEq]
    constructor
    · rintro (hA | ⟨hB, hC⟩)
      · exact Or.inl hA
      · exact Or.inr ⟨hB, w, rfl, hC⟩
    · rintro (hA | ⟨hB, w', hw', hC⟩)
      · exact Or.inl hA
      · cases hw'
        exact Or.inr ⟨hB, hC⟩

/-- Claim C7 as amended: for a valid status on an existing task, the
status-change request succeeds (HTTP 200) exactly when the caller has the
Admin role, or is both a recorded workspace member and the workspace's
owner; on any non-success the durable state is unchanged, and no event is
published either way. -/
theorem C7_amended_status_authorization (db : DB) (user : AuthUser)
    (task_id status : String) (now : Nat) (task : TaskRow)
    (hst : validStatuses.contains status = true)
    (hfind : findTask db task_id = some task) :
    (((postTaskStatus db user task_id status now).httpStatus = 200) ↔
      statusChangeAuthorized db user task) ∧
    ((postTaskStatus db user task_id status now).httpStatus ≠ 200 →
      (postTaskStatus db user task_id status now).db = db) ∧
    (postTaskStatus db user task_id status now).published = [] := by
  unfold postTaskStatus
  rw [hst, hfind]
  simp only [Bool.not_true, Bool.false_eq_true, if_false]
  cases hf : statusForbidden db user task with
  | true =>
    have hna : ¬statusChangeAuthorized db user task := by
      intro ha
      rw [(statusForbidden_false_iff db user task).mpr ha] at hf
      cases hf
    simp [hna]
  | false =>
    have ha := (statusForbidden_false_iff db user task).mp hf
    simp [ha]

/-- Witness for C7's amended theorem: an Admin caller on `dbC7`. -/
theorem C7_amended_status_authorization_witness :
    validStatuses.contains "Completed" = true ∧
    findTask dbC7 "t1" = some ⟨"t1", 1, "Design", none, none, "High", "Pending", none, 0⟩ ∧
    ((((postTaskStatus dbC7 ⟨5, "Admin"⟩ "t1" "Completed" 7).httpStatus = 200) ↔
        statusChangeAuthorized dbC7 ⟨5, "Admin"⟩ ⟨"t1", 1, "Design", none, none, "High", "Pending", none, 0⟩) ∧
      ((postTaskStatus dbC7 ⟨5, "Admin"⟩ "t1" "Completed" 7).httpStatus ≠ 200 →
        (postTaskStatus dbC7 ⟨5, "Admin"⟩ "t1" "Completed" 7).db = dbC7) ∧
      (postTaskStatus dbC7 ⟨5, "Admin"⟩ "t1" "Completed" 7).published = []) :=
  ⟨by decide, by decide,
    C7_amended_status_authorization dbC7 ⟨5, "Admin"⟩ "t1" "Completed" 7
      ⟨"t1", 1, "Design", none, none, "High", "Pending", none, 0⟩ (by decide) (by decide)⟩

/-- Claim C8, counterexample: a PUT /tasks/:task_id request from the
workspace owner carrying the out-of-set status "Bogus" is not rejected
with a validation error before any write: the handler reaches the UPDATE
(`writeAttempted`), which fails on the schema constraint, and the request
ends as a 500 storage error. -/
theorem C8_counterexample_put_skips_validation :
    ¬((putTask dbC8 ⟨9, "Viewer"⟩ "t1" bodyC8 (fun _ => true) 5).httpStatus = 400 ∧
      (putTask dbC8 ⟨9, "Viewer"⟩ "t1" bodyC8 (fun _ => true) 5).writeAttempted = false) ∧
    (putTask dbC8 ⟨9, "Viewer"⟩ "t1" bodyC8 (fun _ => true) 5).httpStatus = 500 ∧
    (putTask dbC8 ⟨9, "Viewer"⟩ "t1" bodyC8 (fun _ => true) 5).writeAttempted = true ∧
    (putTask dbC8 ⟨9, "Viewer"⟩ "t1" bodyC8 (fun _ => true) 5).db = dbC8 := by
  decide

/-- Claim C8 as amended: only POST /tasks/:task_id/status validates the
closed status set — an out-of-set status is answered 400 before any write,
with state unchanged and nothing published; PUT /tasks/:task_id performs
no status validation, and when an out-of-set status reaches its UPDATE the
database constraint fails the write and the handler answers 500 with state
unchanged. -/
theorem C8_amended_status_validation :
    (∀ (db : DB) (user : AuthUser) (task_id status : String) (now : Nat),
      validStatuses.contains status = false →
      postTaskStatus db user task_id status now = ⟨400, db, []⟩) ∧
    (∀ (db : DB) (user : AuthUser) (task_id : String) (body : PutBody)
      (dateOk : String → Bool) (now : Nat) (s : String),
      body.status = some s →
      validStatuses.contains s = false →
      (putTask db user task_id body dateOk now).writeAttempted = true →
      (putTask db user task_id body dateOk now).httpStatus = 500 ∧
      (putTask db user task_id body dateOk now).db = db) := by
  constructor
  · intro db user task_id status now h
    unfold postTaskStatus
    rw [h]
    rfl
  · intro db user task_id body dateOk now s hbs hs hw
    have hok : putBodyRowOk body = false := by
      unfold putBodyRowOk
      rw [hbs]
      dsimp only
      rw [hs]
      rfl
    unfold putTask at hw ⊢
    cases hfind : findTask db task_id with
    | none =>
      rw [hfind] at hw
      simp at hw
    | some task =>
      rw [hfind] at hw
      dsimp only at hw ⊢
      by_cases hd : putDenied db user task = true
      · rw [if_pos hd] at hw
        simp at hw
      · rw [if_neg hd, hok]
        simp

/-- Witness for C8's amended theorem, at the concrete state `dbC8`. -/
theorem C8_amended_status_validation_witness :
    validStatuses.contains "Bogus" = false ∧
    postTaskStatus dbC8 ⟨9, "Viewer"⟩ "t1" "Bogus" 5 = ⟨400, dbC8, []⟩ ∧
    bodyC8.status = some "Bogus" ∧
    (putTask dbC8 ⟨9, "Viewer"⟩ "t2" bodyC8 (fun _ => true) 5).writeAttempted = false ∧
    ((putTask dbC8 ⟨9, "Viewer"⟩ "t1" bodyC8 (fun _ => false) 5).httpStatus = 500 ∧
      (putTask dbC8 ⟨9, "Viewer"⟩ "t1" bodyC8 (fun _ => false) 5).db = dbC8) :=
  ⟨by decide, C8_amended_status_validation.1 dbC8 ⟨9, "Viewer"⟩ "t1" "Bogus" 5 (by decide),
    rfl, by decide,
    C8_amended_status_validation.2 dbC8 ⟨9, "Viewer"⟩ "t1" bodyC8 (fun _ => false) 5 "Bogus"
      rfl (by decide) (by decide)⟩

/-- Claim C9 (confirmed): a handshake with a missing or empty credential,
or one failing verification, leaves the socket disconnected having joined
no room; and a socket that remains connected joined exactly its per-user
room after a successful verification. -/
theorem C9_handshake_requires_valid_credential (token : Option String)
    (verify : String → VerifyResult) :
    ((token = none ∨ token = some "" ∨ ∃ t, token = some t ∧ verify t = VerifyResult.err) →
      (connectionHandler token verify).connected = false ∧
      (connectionHandler token verify).rooms = []) ∧
    ((connectionHandler token verify).connected = true →
      ∃ t uid role, token = some t ∧ verify t = VerifyResult.ok uid role ∧
        (connectionHandler token verify).rooms = ["user_" ++ toString uid]) := by
  constructor
  · rintro (rfl | rfl | ⟨t, rfl, herr⟩)
    · exact ⟨rfl, rfl⟩
    · exact ⟨rfl, rfl⟩
    · unfold connectionHandler
      by_cases ht : t = ""
      · subst ht
        exact ⟨rfl, rfl⟩
      · simp [ht, herr]
  · intro hc
    unfold connectionHandler at hc ⊢
    cases token with
    | none => cases hc
    | some t =>
      by_cases ht : t = ""
      · simp [ht] at hc
      · cases hv : verify t with
        | err => simp [ht, hv] at hc
        | ok uid role => exact ⟨t, uid, role, rfl, hv, by simp [ht, hv]⟩

/-- Witness for C9: a handshake presenting no token at all. -/
theorem C9_handshake_requires_valid_credential_witness :
    (connectionHandler none (fun _ => VerifyResult.err)).connected = false ∧
    (connectionHandler none (fun _ => VerifyResult.err)).rooms = [] :=
  (C9_handshake_requires_valid_credential none (fun _ => VerifyResult.err)).1 (Or.inl rfl)

/-- Claim C10 (confirmed): the handlers for `task_reorder` and
`activity/stream` events return the store state unchanged for every state
and every payload. -/
theorem C10_reorder_activity_handlers_identity (s : AppState) {α : Type} (p : α)
    (a : Activity) :
    handle_task_reordered s p = s ∧ handle_activity_stream s a = s :=
  ⟨rfl, rfl⟩

end MakeATask
